import Mathlib

/-!
Shallow embedding of the content-extraction engine of `src/extractor.py`
(the `ContentExtractor` pipeline: normalizer, noise filter, link-density
scorer, anchor unwrapper, the two candidate generators, the candidate
selector, the title resolver, the block emitter and the template
assembler), together with theorems settling the specification claims.

HTML trees are modelled by the inductive `Node`; Python strings are Lean
`String`s; Python floats that hold scores and densities are modelled as
exact rationals (`ℚ`).  Library calls that can raise are modelled with an
explicit `PyResult`.
-/

namespace Extractor

/-! ### Python string primitives (the Normalizer of the spec) -/

/-- The characters stripped by Python's `str.strip()` (ASCII whitespace). -/
def isPyWs (c : Char) : Bool :=
  c = ' ' || c = '\t' || c = '\n' || c = '\r' || c = '\x0c' || c = '\x0b'

/-- Horizontal whitespace matched by the `_norm_ws` regex `[ \t\r\f\v]+`
(note: it does NOT include the newline). -/
def isHWs (c : Char) : Bool :=
  c = ' ' || c = '\t' || c = '\r' || c = '\x0c' || c = '\x0b'

def dropLeadingWs : List Char → List Char
  | [] => []
  | c :: cs => if isPyWs c then dropLeadingWs cs else c :: cs

/-- Python `s.strip()` restricted to ASCII whitespace. -/
def pyStrip (s : String) : String :=
  ⟨(dropLeadingWs (dropLeadingWs s.data.reverse).reverse)⟩

/-- `_text_len`: `len((s or "").strip())`. -/
def textLen (s : String) : ℕ := (pyStrip s).length

/-- Collapse each maximal run of `[ \t\r\f\v]` to a single space
(the substitution step of `_norm_ws`); `inRun` records whether the
previous character belonged to such a run. -/
def collapseHWsAux : Bool → List Char → List Char
  | _, [] => []
  | inRun, c :: cs =>
    if isHWs c then
      if inRun then collapseHWsAux true cs else ' ' :: collapseHWsAux true cs
    else c :: collapseHWsAux false cs

/-- `_norm_ws`: `re.sub(r"[ \t\r\f\v]+", " ", s).strip()`. -/
def normWs (s : String) : String :=
  pyStrip ⟨collapseHWsAux false s.data⟩

/-- Characters on which Python `str.splitlines` breaks
(the ASCII ones; `\r\n` is handled as one break by `pySplitlines`). -/
def isLineBreakChar (c : Char) : Bool :=
  c = '\n' || c = '\r' || c = '\x0b' || c = '\x0c' ||
  c = '\x1c' || c = '\x1d' || c = '\x1e' || c = '\x85' ||
  c = '\u2028' || c = '\u2029'

def splitlinesAux : List Char → List Char → List (List Char)
  | cur, [] => if cur.isEmpty then [] else [cur.reverse]
  | cur, '\r' :: '\n' :: rest => cur.reverse :: splitlinesAux [] rest
  | cur, c :: rest =>
    if isLineBreakChar c then cur.reverse :: splitlinesAux [] rest
    else splitlinesAux (c :: cur) rest

/-- Python `s.splitlines()`. -/
def pySplitlines (s : String) : List String :=
  (splitlinesAux [] s.data).map fun l => ⟨l⟩

def dropTrailNL : List Char → List Char
  | [] => []
  | c :: cs => if c = '\n' then dropTrailNL cs else c :: cs

/-- Python `s.rstrip("\n")`. -/
def rstripNL (s : String) : String :=
  ⟨(dropTrailNL s.data.reverse).reverse⟩

/-- Python `sep.join(xs)`. -/
def joinWith (sep : String) : List String → String
  | [] => ""
  | [s] => s
  | s :: t :: rest => s ++ sep ++ joinWith sep (t :: rest)

def lowerStr (s : String) : String := ⟨s.data.map Char.toLower⟩

def upperStr (s : String) : String := ⟨s.data.map Char.toUpper⟩

/-- `pat` occurs as a contiguous sublist of `hay`. -/
def subOccurs (pat : List Char) : List Char → Bool
  | [] => pat.isEmpty
  | c :: rest => pat.isPrefixOf (c :: rest) || subOccurs pat rest

/-- Python `pat in s` (substring test). -/
def containsSub (s pat : String) : Bool := subOccurs pat.data s.data

/-- Case-insensitive substring search, as the `re.I` patterns do. -/
def searchLit (lit s : String) : Bool := containsSub (lowerStr s) lit

/-- Python `a or b` on strings (empty string is falsy). -/
def pyOr (a b : String) : String := if a = "" then b else a

/-! ### The tree model -/

/-- An HTML tree node: a text run, or an element with a tag name, an
attribute list and ordered children.  The document root produced by a
parse is an element whose tag is `"[document]"`. -/
inductive Node where
  | text (s : String)
  | elem (tag : String) (attrs : List (String × String)) (children : List Node)

namespace Node

mutual

/-- All text runs below (and at) a node, in document order
(the NavigableStrings that bs4 `get_text` joins). -/
def strings : Node → List String
  | .text s => [s]
  | .elem _ _ cs => stringsList cs

def stringsList : List Node → List String
  | [] => []
  | c :: cs => strings c ++ stringsList cs

end

end Node

/-- bs4 `node.get_text(sep, strip=True)`: strip each text run, drop the
ones that become empty, join with `sep`. -/
def getTextStrip (sep : String) (t : Node) : String :=
  joinWith sep ((t.strings.map pyStrip).filter (· ≠ ""))

/-- bs4 `node.get_text(sep, strip=False)`: join all text runs with `sep`. -/
def getTextRaw (sep : String) (t : Node) : String :=
  joinWith sep t.strings

mutual

/-- The element itself (when its tag satisfies `p`) followed by its
matching descendants, in document order. -/
def descElemsNode (p : String → Bool) : Node → List Node
  | .text _ => []
  | .elem tag attrs cs =>
    (if p tag then [Node.elem tag attrs cs] else []) ++ descElemsList p cs

def descElemsList (p : String → Bool) : List Node → List Node
  | [] => []
  | c :: rest => descElemsNode p c ++ descElemsList p rest

end

/-- bs4 `soup.find_all(p)`: every descendant element (the root itself is
never returned) whose tag satisfies `p`, in document order, recursing
into matched elements as well. -/
def descElems (p : String → Bool) : Node → List Node
  | .text _ => []
  | .elem _ _ cs => descElemsList p cs

/-- bs4 `soup.find(p)`: the first match of `find_all` in document order. -/
def findElem (p : String → Bool) (t : Node) : Option Node :=
  (descElems p t).head?

/-- `_has_headings`: `bool(soup.find(["h2", "h3", "h4", "h5"]))`. -/
def hasHeadings (t : Node) : Bool :=
  (findElem (fun n => n = "h2" || n = "h3" || n = "h4" || n = "h5") t).isSome

/-- Python `max(x, y)` on rationals (`x` wins a tie, irrelevant here). -/
def pyMax (x y : ℚ) : ℚ := if y ≤ x then x else y

/-- Python `min(x, y)` on rationals. -/
def pyMin (x y : ℚ) : ℚ := if x ≤ y then x else y

/-- Python `max(1, n)` on integers as used by `_link_density`. -/
def pyMaxNat (x y : ℕ) : ℕ := if y ≤ x then x else y

/-- `_link_density`: fraction of visible text inside anchors, clamped to
`[0, 1]`; `1.0` for a tree with empty visible text. -/
def linkDensity (t : Node) : ℚ :=
  let totalText := getTextStrip " " t
  let totalLen := totalText.length
  if totalLen = 0 then 1
  else
    let linkChars :=
      ((descElems (· = "a") t).map fun a => (getTextStrip " " a).length).sum
    let ld : ℚ := (linkChars : ℚ) / (pyMaxNat 1 totalLen : ℕ)
    pyMin (pyMax ld 0) 1

/-! ### Anchor Unwrapper and structural pruning passes -/

mutual

/-- `_unwrap_all_anchors` below one node: each (outermost) `a` element is
replaced, in place, by the text run `a.get_text(" ", strip=True)`. -/
def unwrapAnchorsNode : Node → Node
  | .text s => .text s
  | .elem tag attrs cs =>
    if tag = "a" then Node.text (getTextStrip " " (.elem tag attrs cs))
    else Node.elem tag attrs (unwrapAnchorsList cs)

def unwrapAnchorsList : List Node → List Node
  | [] => []
  | c :: rest => unwrapAnchorsNode c :: unwrapAnchorsList rest

end

/-- `_unwrap_all_anchors` (bs4 `find_all` only returns descendants, so the
root itself is never replaced). -/
def unwrapAllAnchors : Node → Node
  | .text s => .text s
  | .elem tag attrs cs => .elem tag attrs (unwrapAnchorsList cs)

mutual

/-- Remove every descendant element whose tag/attributes satisfy `p`,
together with its whole subtree (the effect of decomposing each matched
element of a materialized `find_all` list); a matched node maps to `[]`,
anything else to itself with pruned children. -/
def pruneNode (p : String → List (String × String) → Bool) : Node → List Node
  | .text s => [.text s]
  | .elem tag attrs cs =>
    if p tag attrs then [] else [Node.elem tag attrs (pruneList p cs)]

def pruneList (p : String → List (String × String) → Bool) :
    List Node → List Node
  | [] => []
  | c :: rest => pruneNode p c ++ pruneList p rest

end

/-- Prune matching descendants of the root (the root is never removed). -/
def pruneTree (p : String → List (String × String) → Bool) : Node → Node
  | .text s => .text s
  | .elem tag attrs cs => .elem tag attrs (pruneList p cs)

/-- `_remove_scripts_styles`: decompose script/style/noscript/template. -/
def removeScriptsStyles (t : Node) : Node :=
  pruneTree
    (fun tag _ =>
      tag = "script" || tag = "style" || tag = "noscript" || tag = "template")
    t

/-- The literal alternatives of `NOISE_PATTERNS` (matched case-insensitively
as substrings, as `re.search` does on this alternation of literals). -/
def noiseLits : List String :=
  ["nav", "menu", "header", "footer", "sidebar", "aside", "toc",
   "table-of-contents", "index", "share", "sns", "social", "ad", "ads",
   "advert", "sponsor", "recommend", "related", "comment", "reply",
   "profile", "author", "tag", "category", "breadcrumb", "pager",
   "pagination", "subscribe", "newsletter", "widget", "banner", "modal",
   "popup", "cookie", "gdpr", "cta", "prev", "next"]

/-- `NOISE_PATTERNS.search(s)` as a Boolean. -/
def noiseSearch (s : String) : Bool := noiseLits.any fun lit => searchLit lit s

/-- The literal alternatives of `CAPTION_PATTERNS`. -/
def captionLits : List String :=
  ["caption", "figcaption", "photo-credit", "credit"]

/-- `CAPTION_PATTERNS.search(s)` as a Boolean. -/
def captionSearch (s : String) : Bool :=
  captionLits.any fun lit => searchLit lit s

/-- `el.get(key)` on the attribute mapping. -/
def getAttr (key : String) (attrs : List (String × String)) : Option String :=
  (attrs.find? fun kv => kv.1 = key).map Prod.snd

/-- `el.get("class", [])`: bs4 splits the `class` attribute value on
whitespace into a token list. -/
def classTokens (attrs : List (String × String)) : List String :=
  match getAttr "class" attrs with
  | none => []
  | some v => ((v.data.splitOnP isPyWs).map fun l => (⟨l⟩ : String)).filter (· ≠ "")

/-- The id/name, class and `data-*` noise tests of the first `_drop_noise`
loop (elements without attributes are skipped by the fast path). -/
def noisyAttrs (attrs : List (String × String)) : Bool :=
  !attrs.isEmpty &&
    ((attrs.any fun kv => (kv.1 = "id" || kv.1 = "name") && noiseSearch kv.2) ||
     ((classTokens attrs).any noiseSearch) ||
     (attrs.any fun kv => kv.1.startsWith "data-" && noiseSearch kv.2))

/-- The caption test of the second `_drop_noise` loop:
`CAPTION_PATTERNS.search(" ".join(el.get("class", [])) + " " + (el.get("id") or ""))`. -/
def captionAttrs (attrs : List (String × String)) : Bool :=
  captionSearch
    (joinWith " " (classTokens attrs) ++ " " ++
      pyOr ((getAttr "id" attrs).getD "") "")

/-- `_drop_noise`: three sequential decomposition passes — noisy
attributes, captions, then the `header`/`footer`/`nav`/`aside` landmarks. -/
def dropNoise (t : Node) : Node :=
  pruneTree
    (fun tag _ => tag = "header" || tag = "footer" || tag = "nav" || tag = "aside")
    (pruneTree (fun _ attrs => captionAttrs attrs)
      (pruneTree (fun _ attrs => noisyAttrs attrs) t))

/-- `SITE_RULES` is empty in the source (a future extension point). -/
def siteRules : List (String × List String) := []

/-- `_apply_site_rules`: with `SITE_RULES` empty, the lookup always fails
and the tree is returned unchanged. -/
def applySiteRules (domain : String) (t : Node) : Node :=
  match siteRules.lookup domain with
  | none => t
  | some _ => t

/-! ### Titles -/

/-- `_page_title`: the normalized text of the raw document's first
`<title>` element, `""` if there is none. -/
def pageTitle (rawDoc : Node) : String :=
  match findElem (· = "title") rawDoc with
  | some t => normWs (getTextStrip " " t)
  | none => ""

/-- `_h1_title`: the normalized text of the first `<h1>` of a tree. -/
def h1Title (t : Node) : String :=
  match findElem (· = "h1") t with
  | some h => normWs (getTextStrip " " h)
  | none => ""

/-! ### Candidate Generators -/

/-- The candidate record built by both generators. -/
structure Candidate where
  name : String
  title : String
  soup : Node
  text : String
  score : ℚ

/-- The shared cleaning/scoring tail of `_readability_candidate`
(lines after the `Document` extraction): remove scripts and styles, apply
site rules, drop noise, unwrap anchors, flatten text, score with a +15%
bonus when the cleaned tree still has an `h2`–`h5` heading. -/
def readabilityClean (domain title : String) (content : Node) : Candidate :=
  let soup := removeScriptsStyles content
  let soup := applySiteRules domain soup
  let soup := dropNoise soup
  let soup := unwrapAllAnchors soup
  let text := getTextStrip " " soup
  let score : ℚ := (text.length : ℚ) * (1 - linkDensity soup)
  let score := if hasHeadings soup then score * (115 / 100) else score
  { name := "readability", title := title, soup := soup,
    text := text, score := score }

/-- The shared cleaning/scoring tail of `_trafilatura_candidate`: the same
cleaning passes, then a +10% bonus with headings and a −8% penalty
without them. -/
def trafilaturaClean (domain title : String) (content : Node) : Candidate :=
  let soup := removeScriptsStyles content
  let soup := applySiteRules domain soup
  let soup := dropNoise soup
  let soup := unwrapAllAnchors soup
  let text := getTextStrip " " soup
  let score : ℚ := (text.length : ℚ) * (1 - linkDensity soup)
  let score := if hasHeadings soup then score * (110 / 100) else score * (92 / 100)
  { name := "trafilatura", title := title, soup := soup,
    text := text, score := score }

/-! ### Candidate Selector -/

/-- Python `max(c :: rest, key=score)`: the first element of maximal
score (a later element replaces the current best only when strictly
greater). -/
def maxByScore : Candidate → List Candidate → Candidate
  | best, [] => best
  | best, c :: rest => maxByScore (if best.score < c.score then c else best) rest

/-- `_pick_best`: gate both candidates on `_text_len(text) > 50`; if
neither passes return `cand_a or cand_b`; otherwise the highest-score
gated candidate (first wins ties). -/
def pickBest (candA candB : Option Candidate) : Option Candidate :=
  let candidates :=
    (candA.toList ++ candB.toList).filter fun c => 50 < textLen c.text
  match candidates with
  | [] => candA.orElse fun _ => candB
  | c :: rest => some (maxByScore c rest)

/-! ### Block Emitter -/

/-- `_format_table`: one `" | "`-joined line per `tr` that has at least
one `th`/`td` cell. -/
def formatTable (table : Node) : List String :=
  (descElems (· = "tr") table).filterMap fun tr =>
    let cells :=
      (descElems (fun n => n = "th" || n = "td") tr).map fun c =>
        normWs (getTextStrip " " c)
    if cells.isEmpty then none else some (joinWith " | " cells)

/-- The tag list of the emitter's `find_all`. -/
def emitTags : List String :=
  ["h2", "h3", "h4", "h5", "p", "ul", "ol", "pre", "code", "blockquote", "table"]

mutual

/-- The materialized `soup.find_all([...], recursive=True)` of
`_emit_blocks` below one node, paired with each element's parent tag
(needed for the code-inside-pre test). -/
def emitTargetsNode (parent : String) : Node → List (String × Node)
  | .text _ => []
  | .elem tag attrs cs =>
    (if tag ∈ emitTags then [(parent, Node.elem tag attrs cs)] else []) ++
      emitTargetsList tag cs

def emitTargetsList (parent : String) : List Node → List (String × Node)
  | [] => []
  | c :: rest => emitTargetsNode parent c ++ emitTargetsList parent rest

end

/-- The matched elements of a tree, in document order. -/
def matchedElems : Node → List (String × Node)
  | .text _ => []
  | .elem tag _ cs => emitTargetsList tag cs

/-- The loop state of `_emit_blocks`. -/
structure EmitState where
  lines : List String
  currentLevel : Option String
  openedBody : Bool
  emittedAny : Bool

def initState : EmitState :=
  { lines := [], currentLevel := none, openedBody := false, emittedAny := false }

/-- `open_body`: append the heading line and the literal `"Body:"` line,
record the opened level. -/
def openBody (st : EmitState) (levelLabel headingText : String) : EmitState :=
  { st with
    lines := st.lines ++ [levelLabel ++ ": " ++ headingText, "Body:"],
    openedBody := true,
    currentLevel := some levelLabel }

/-- The `ul`/`ol` branch: one line per direct `li` child with non-empty
normalized text, bulleted `-` or `1.`, `2.`, … (the index counts every
direct `li`, including the ones whose text is empty). -/
def listItemLines (ordered : Bool) (cs : List Node) : List String :=
  let lis := cs.filter fun c =>
    match c with
    | .elem tag _ _ => tag = "li"
    | .text _ => false
  (lis.enum.filterMap fun iLi =>
    let t := normWs (getTextStrip " " iLi.2)
    if t = "" then none
    else some ((if ordered then toString (iLi.1 + 1) ++ "." else "-") ++ " " ++ t))

/-- The lines a matched non-heading element contributes (the `p`, `ul`,
`ol`, `blockquote`, `pre`, `code` and `table` branches of the
`_emit_blocks` loop, each of which only appends to `lines`). -/
def blockLines (parent : String) (el : Node) : List String :=
  match el with
  | .text _ => []
  | .elem name _ cs =>
    if name = "p" then
      let t := normWs (getTextStrip " " el)
      if t = "" then [] else [t]
    else if name = "ul" || name = "ol" then listItemLines (name = "ol") cs
    else if name = "blockquote" then
      let t := getTextStrip "\n" el
      if t = "" then []
      else
        (pySplitlines t).filterMap fun ln =>
          let l := normWs ln
          if l = "" then none else some ("> " ++ l)
    else if name = "pre" then
      ["```"] ++ pySplitlines (rstripNL (getTextRaw "\n" el)) ++ ["```"]
    else if name = "code" then
      -- avoid duplicating when the code element sits inside a pre
      if parent = "pre" then []
      else
        let t := getTextStrip " " el
        if t = "" then [] else ["`" ++ t ++ "`"]
    else if name = "table" then
      let tableLines := formatTable el
      if tableLines.isEmpty then []
      else ["[TABLE]"] ++ tableLines ++ ["[/TABLE]"]
    else []

/-- One iteration of the `_emit_blocks` loop over a matched element and
its parent tag: a non-empty heading opens a section; any other matched
element first opens the synthetic Introduction section when no heading
has been seen, then appends its `blockLines`. -/
def emitStep (st : EmitState) (pe : String × Node) : EmitState :=
  match pe.2 with
  | .text _ => st
  | .elem name _ _ =>
    if name = "h2" || name = "h3" || name = "h4" || name = "h5" then
      let txt := normWs (getTextStrip " " pe.2)
      if txt = "" then st
      else { openBody st (upperStr name) txt with emittedAny := true }
    else
      -- open the synthetic Introduction section if no heading was seen yet
      let st1 :=
        if !st.emittedAny && !st.openedBody then
          { openBody st "H2" "Introduction" with emittedAny := true }
        else st
      { st1 with lines := st1.lines ++ blockLines pe.1 pe.2 }

/-- The lines produced by the full walk of `_emit_blocks` (before the
empty-output check). -/
def emitWalk (t : Node) : List String :=
  ((matchedElems t).foldl emitStep initState).lines

/-- `_emit_blocks`: the walk's lines, or the single in-band error line
when the walk produced nothing. -/
def emitBlocks (t : Node) : List String :=
  let lines := emitWalk t
  if lines = [] then ["ERROR: content_not_found"] else lines

/-! ### Template Assembler (`extract_to_template` after the fetch) -/

/-- The Title Resolver (line 476 of `src/extractor.py`):
`h1 or readability-title or page-title or ""` with Python's
left-associated `or` over strings. -/
def resolveTitle (bestSoup : Node) (candRead : Option Candidate)
    (rawDoc : Node) : String :=
  pyOr
    (pyOr (pyOr (h1Title bestSoup)
      (match candRead with | some c => c.title | none => ""))
      (pageTitle rawDoc))
    ""

/-- The final cleanup pass run on the selected candidate's tree just
before emission (lines 479–481). -/
def finalCleanup (t : Node) : Node :=
  unwrapAllAnchors (dropNoise (removeScriptsStyles t))

/-- The post-fetch core of `extract_to_template` (lines 464–488 of
`src/extractor.py`): the raw document is already parsed and the two
generator results are given.  bs4's `Tag.__bool__` is constantly true, so
`not best.get("soup")` never fires once a candidate dict exists. -/
def extractToTemplate (finalUrl : String) (rawDoc : Node)
    (candRead candTra : Option Candidate) : String :=
  match pickBest candRead candTra with
  | none => "BEGIN\nURL: " ++ finalUrl ++ "\nERROR: content_not_found\nEND"
  | some best =>
    let title := resolveTitle best.soup candRead rawDoc
    let lines := emitBlocks (finalCleanup best.soup)
    joinWith "\n"
      (["BEGIN", "URL: " ++ finalUrl,
        "Title: " ++ (if title = "" then "(no title)" else title)] ++
        lines ++ ["END"])

/-! ### Exception behaviour of the generators -/

/-- A Python exception: `TypeError` is distinguished because
`_trafilatura_candidate` handles it specially. -/
inductive PyErr where
  | typeError
  | other (msg : String)
deriving DecidableEq, Repr

/-- The outcome of running a piece of Python code: a value, or a raised
exception. -/
inductive PyResult (α : Type) where
  | ok (a : α)
  | raised (e : PyErr)
deriving DecidableEq, Repr

/-- `_readability_candidate`: everything, from `Document(html_text)` to
the candidate construction, runs inside one `try`; `parsed` is the
outcome of the library calls (`Document`, `summary`, `short_title`, and
the `BeautifulSoup` parse), delivering the short title and the parsed
summary tree on success.  Any exception yields `None`. -/
def readabilityCandidate (parsed : PyResult (String × Node))
    (domain : String) : PyResult (Option Candidate) :=
  match parsed with
  | .raised _ => .ok none
  | .ok (shortTitle, contentSoup) =>
    .ok (some (readabilityClean domain (normWs shortTitle) contentSoup))

/-- The light TEI-to-HTML mapping applied to the trafilatura XML string:
`head`→`h2`, `quote`→`blockquote`, `list`→`ul`, `item`→`li`. -/
def mapXmlString (xml : String) : String :=
  ((((((((xml.replace "<head" "<h2").replace "</head>" "</h2>").replace
    "<quote" "<blockquote").replace "</quote>" "</blockquote>").replace
    "<list" "<ul").replace "</list>" "</ul>").replace
    "<item" "<li").replace "</item>" "</li>")

/-- The library calls `_trafilatura_candidate` can make:
the XML-format extraction under its modern and legacy keyword, the
plain-text extraction, and the `BeautifulSoup` parse of the mapped XML. -/
structure TrafilaturaCalls where
  extractXmlNew : PyResult (Option String)
  extractXmlOld : PyResult (Option String)
  extractPlain : PyResult (Option String)
  parseMapped : String → Node

/-- The plain-text fallback of `_trafilatura_candidate`: call the plain
extraction (NOT inside any `try`, so an exception propagates), return
`None` when it yields no text, otherwise wrap each non-empty normalized
line in a synthetic `<p>` and run the shared cleaning tail. -/
def trafilaturaPlainPath (plainCall : PyResult (Option String))
    (domain : String) : PyResult (Option Candidate) :=
  match plainCall with
  | .raised e => .raised e
  | .ok none => .ok none
  | .ok (some txt) =>
    .ok (some (trafilaturaClean domain ""
      (Node.elem "[document]" []
        ((pySplitlines txt).filterMap fun l =>
          let para := normWs l
          if para = "" then none
          else some (Node.elem "p" [] [Node.text para])))))

/-- `_trafilatura_candidate`: the XML attempt is guarded (a `TypeError`
falls back to the legacy keyword, itself guarded; any other exception
leaves `xml = None`), but the plain-text extraction call is NOT inside
any `try` — an exception raised there propagates to the caller. -/
def trafilaturaCandidate (calls : TrafilaturaCalls)
    (domain : String) : PyResult (Option Candidate) :=
  let xml : Option String :=
    match calls.extractXmlNew with
    | .ok v => v
    | .raised .typeError =>
      match calls.extractXmlOld with
      | .ok v => v
      | .raised _ => none
    | .raised (.other _) => none
  match xml with
  | some x =>
    if containsSub x "<" && containsSub x "</" then
      let soup := calls.parseMapped (mapXmlString x)
      let title :=
        match findElem (· = "title") soup with
        | some t => normWs (getTextStrip " " t)
        | none => ""
      .ok (some (trafilaturaClean domain title soup))
    else trafilaturaPlainPath calls.extractPlain domain
  | none => trafilaturaPlainPath calls.extractPlain domain

/-! ### Specification-side definitions

These definitions follow the wording of the specification (not the
source); the theorems below compare them with the embedded code. -/

/-- The minimum-content gate of §4.4: keep a candidate only when its
cleaned text length exceeds 50 characters. -/
def gateSpec (c : Option Candidate) : Option Candidate :=
  match c with
  | some ca => if 50 < textLen ca.text then some ca else none
  | none => none

/-- The Candidate Selector as §4.4 words it: gate each input on cleaned
text length strictly above 50; among gated candidates the strictly
greater score wins and the first wins ties; with no gated candidate,
fall back to whichever input is non-null, preferring the first. -/
def pickBestSpec (candA candB : Option Candidate) : Option Candidate :=
  match gateSpec candA, gateSpec candB with
  | some ca, some cb => some (if ca.score < cb.score then cb else ca)
  | some ca, none => some ca
  | none, some cb => some cb
  | none, none => candA.orElse fun _ => candB

/-- The Title Resolver chain as §4.5 words it: the first non-empty value
in the priority list wins, otherwise the placeholder. -/
def firstNonEmpty : List String → String → String
  | [], dflt => dflt
  | s :: rest, dflt => if s = "" then firstNonEmpty rest dflt else s

mutual

/-- No element of this subtree (itself included) carries one of the tag
names the Block Emitter recognizes. -/
def noEmitTagsNode : Node → Bool
  | .text _ => true
  | .elem tag _ cs => !(decide (tag ∈ emitTags)) && noEmitTagsList cs

def noEmitTagsList : List Node → Bool
  | [] => true
  | c :: rest => noEmitTagsNode c && noEmitTagsList rest

end

/-! ### Concrete fixtures used by counterexamples and witnesses -/

/-- A candidate tree with one anchor: visible text `"hello world"`
(11 characters), 5 of which sit inside the anchor. -/
def c1Tree : Node :=
  .elem "[document]" []
    [.elem "p" [] [.text "hello ", .elem "a" [("href", "x")] [.text "world"]]]

/-- A selected candidate whose tree has text but no recognizable block
element, so the emitter walk produces zero lines. -/
def emptyWalkCand : Candidate :=
  { name := "readability", title := "Some Title",
    soup := .elem "[document]" [] [.elem "div" [] [.text "just some text"]],
    text := "just some text", score := 14 }

/-- A raw document carrying a `<title>` element. -/
def rawWithTitle : Node :=
  .elem "html" [] [.elem "head" [] [.elem "title" [] [.text "Page Title"]]]

/-- A short candidate (text well under the 50-character gate) whose tree
still emits one paragraph line. -/
def shortCand : Candidate :=
  { name := "readability", title := "",
    soup := .elem "[document]" [] [.elem "p" [] [.text "hi"]],
    text := "hi", score := 2 }

/-- A second short candidate, for the selector fallback. -/
def shortCandB : Candidate :=
  { name := "trafilatura", title := "",
    soup := .elem "[document]" [] [.elem "p" [] [.text "yo"]],
    text := "yo", score := 1 }

/-- A candidate with empty cleaned text (length 0). -/
def emptyTextCand : Candidate :=
  { name := "readability", title := "",
    soup := .elem "[document]" [] [], text := "", score := 0 }

/-- A candidate whose cleaned text is 60 characters long. -/
def longTextCand : Candidate :=
  { name := "trafilatura", title := "",
    soup := .elem "[document]" []
      [.elem "p" [] [.text "abcdefghij abcdefghij abcdefghij abcdefghij abcdefghij abcd"]],
    text := "abcdefghij abcdefghij abcdefghij abcdefghij abcdefghij abcd",
    score := 60 }

/-- `c1Tree` after the anchor unwrap: the anchor is gone, its text kept. -/
def c1TreeUnwrapped : Node :=
  .elem "[document]" [] [.elem "p" [] [.text "hello ", .text "world"]]

/-- A tree whose only recognized element is an empty `<p>`. -/
def emptyParaTree : Node :=
  .elem "[document]" [] [.elem "p" [] []]

/-- A tree with visible text but no emitter-recognized element. -/
def plainDivTree : Node :=
  .elem "[document]" [] [.elem "div" [] [.text "plain"]]

/-! ### Shared helper lemmas -/

theorem clamp_bounds (x : ℚ) :
    0 ≤ pyMin (pyMax x 0) 1 ∧ pyMin (pyMax x 0) 1 ≤ 1 := by
  unfold pyMin pyMax
  split_ifs <;> constructor <;> linarith

theorem pyOr_empty_right (s : String) : pyOr s "" = s := by
  unfold pyOr
  split
  · rename_i h
    exact h.symm
  · rfl

theorem title_chain_eq (bestSoup : Node) (a : Option Candidate) (rawDoc : Node) :
    (if resolveTitle bestSoup a rawDoc = "" then "(no title)"
      else resolveTitle bestSoup a rawDoc) =
    firstNonEmpty
      [h1Title bestSoup,
       (match a with | some c => c.title | none => ""),
       pageTitle rawDoc] "(no title)" := by
  unfold resolveTitle
  rw [pyOr_empty_right]
  by_cases h1 : h1Title bestSoup = "" <;>
    by_cases h2 : (match a with | some c => c.title | none => "") = "" <;>
    by_cases h3 : pageTitle rawDoc = "" <;>
    simp [pyOr, firstNonEmpty, h1, h2, h3]

theorem joinWith_cons_of_ne (sep x : String) (rest : List String)
    (h : rest ≠ []) : joinWith sep (x :: rest) = x ++ sep ++ joinWith sep rest := by
  cases rest with
  | nil => exact absurd rfl h
  | cons y t => rfl

mutual

theorem emitTargetsNode_nil : ∀ (parent : String) (c : Node),
    noEmitTagsNode c = true → emitTargetsNode parent c = []
  | _, .text _, _ => rfl
  | parent, .elem tag attrs cs, h => by
    unfold noEmitTagsNode at h
    rw [Bool.and_eq_true] at h
    unfold emitTargetsNode
    have htag : ¬ tag ∈ emitTags := by simpa using h.1
    rw [if_neg htag, emitTargetsList_nil tag cs h.2]
    rfl

theorem emitTargetsList_nil : ∀ (parent : String) (l : List Node),
    noEmitTagsList l = true → emitTargetsList parent l = []
  | _, [], _ => rfl
  | parent, c :: rest, h => by
    unfold noEmitTagsList at h
    rw [Bool.and_eq_true] at h
    unfold emitTargetsList
    rw [emitTargetsNode_nil parent c h.1, emitTargetsList_nil parent rest h.2]
    rfl

end

theorem emitStep_extend (st : EmitState) (pe : String × Node) :
    ∃ d, (emitStep st pe).lines = st.lines ++ d := by
  obtain ⟨par, el⟩ := pe
  cases el with
  | text s => exact ⟨[], by simp [emitStep]⟩
  | elem name attrs cs =>
    simp only [emitStep]
    by_cases hh : (name = "h2" || name = "h3" || name = "h4" || name = "h5") = true
    · rw [if_pos hh]
      by_cases ht : normWs (getTextStrip " " (Node.elem name attrs cs)) = ""
      · rw [if_pos ht]
        exact ⟨[], by simp⟩
      · rw [if_neg ht]
        exact ⟨_, rfl⟩
    · rw [if_neg hh]
      by_cases hi : (!st.emittedAny && !st.openedBody) = true
      · rw [if_pos hi]
        exact ⟨"H2: Introduction" :: "Body:" :: blockLines par (Node.elem name attrs cs),
          by simp [openBody, List.append_assoc]⟩
      · rw [if_neg hi]
        exact ⟨_, rfl⟩

theorem foldl_emitStep_extend (l : List (String × Node)) :
    ∀ st : EmitState, ∃ d, (l.foldl emitStep st).lines = st.lines ++ d := by
  induction l with
  | nil => exact fun st => ⟨[], by simp⟩
  | cons pe rest ih =>
    intro st
    obtain ⟨d1, h1⟩ := emitStep_extend st pe
    obtain ⟨d2, h2⟩ := ih (emitStep st pe)
    exact ⟨d1 ++ d2, by rw [List.foldl_cons, h2, h1, List.append_assoc]⟩

theorem emitStep_init_nonheading (par tag : String)
    (attrs : List (String × String)) (cs : List Node)
    (h2 : tag ≠ "h2") (h3 : tag ≠ "h3") (h4 : tag ≠ "h4") (h5 : tag ≠ "h5") :
    ∃ d, (emitStep initState (par, Node.elem tag attrs cs)).lines =
      ["H2: Introduction", "Body:"] ++ d := by
  simp only [emitStep]
  rw [if_neg (by simp [h2, h3, h4, h5])]
  rw [if_pos (show (!initState.emittedAny && !initState.openedBody) = true from rfl)]
  exact ⟨_, rfl⟩

/-! ### The claims -/

/-- Claim C1.  Evaluation of the code at a failing input: on `c1Tree`
(text `"hello world"`, 5 of 11 characters inside an anchor) the
pre-unwrap link density is `5/11`, yet the generators store the
post-unwrap tree as the candidate's tree, the density of that stored
tree is `0`, and both scores carry no link-density penalty at all
(`11` resp. `11 * 0.92`) instead of the penalised
`length * (1 - 5/11)` the claim's ordering would give: the anchors are
already gone when `_link_density` is evaluated for scoring. -/
theorem C1_link_density_evaluated_after_anchor_unwrap :
    linkDensity c1Tree = 5 / 11 ∧
    (readabilityClean "" "T" c1Tree).soup = c1TreeUnwrapped ∧
    linkDensity (readabilityClean "" "T" c1Tree).soup = 0 ∧
    (readabilityClean "" "T" c1Tree).score = 11 ∧
    (trafilaturaClean "" "" c1Tree).score = 11 * (92 / 100) ∧
    (readabilityClean "" "T" c1Tree).score ≠
      ((readabilityClean "" "T" c1Tree).text.length : ℚ) *
        (1 - linkDensity c1Tree) := by
  have hpre : linkDensity c1Tree = 5 / 11 := by
    simp only [linkDensity, show getTextStrip " " c1Tree = "hello world" from rfl,
      show descElems (· = "a") c1Tree = [.elem "a" [("href", "x")] [.text "world"]] from rfl,
      show getTextStrip " " (Node.elem "a" [("href", "x")] [.text "world"]) = "world" from rfl,
      show ("hello world").length = 11 from rfl, show ("world").length = 5 from rfl,
      List.map_cons, List.map_nil, List.sum_cons, List.sum_nil, Function.comp,
      pyMaxNat, pyMax, pyMin]
    norm_num
  have hu : linkDensity c1TreeUnwrapped = 0 := by
    simp only [linkDensity,
      show getTextStrip " " c1TreeUnwrapped = "hello world" from rfl,
      show descElems (· = "a") c1TreeUnwrapped = [] from rfl,
      show ("hello world").length = 11 from rfl,
      List.map_nil, List.sum_nil, pyMaxNat, pyMax, pyMin]
    norm_num
  have hsoup : (readabilityClean "" "T" c1Tree).soup = c1TreeUnwrapped := rfl
  have hscore : (readabilityClean "" "T" c1Tree).score = 11 := by
    simp only [readabilityClean,
      show applySiteRules "" (removeScriptsStyles c1Tree) = c1Tree from rfl,
      show unwrapAllAnchors (dropNoise c1Tree) = c1TreeUnwrapped from rfl,
      show hasHeadings c1TreeUnwrapped = false from rfl,
      show getTextStrip " " c1TreeUnwrapped = "hello world" from rfl,
      show ("hello world").length = 11 from rfl, hu]
    norm_num
  have htscore : (trafilaturaClean "" "" c1Tree).score = 11 * (92 / 100) := by
    simp only [trafilaturaClean,
      show applySiteRules "" (removeScriptsStyles c1Tree) = c1Tree from rfl,
      show unwrapAllAnchors (dropNoise c1Tree) = c1TreeUnwrapped from rfl,
      show hasHeadings c1TreeUnwrapped = false from rfl,
      show getTextStrip " " c1TreeUnwrapped = "hello world" from rfl,
      show ("hello world").length = 11 from rfl, hu]
    norm_num
  refine ⟨hpre, hsoup, hsoup ▸ hu, hscore, htscore, ?_⟩
  rw [hscore, hpre, show (readabilityClean "" "T" c1Tree).text = "hello world" from rfl]
  norm_num [show ("hello world").length = 11 from rfl]

/-- Claim C2, counterexample.  When the XML-format extraction raises a
generic exception (so `xml` is `None`) and the plain-text extraction
call then raises, `_trafilatura_candidate` propagates that exception
instead of returning `None`. -/
theorem C2_counterexample_plain_extraction_exception_propagates :
    trafilaturaCandidate
      { extractXmlNew := .raised (.other "extraction failed"),
        extractXmlOld := .ok none,
        extractPlain := .raised (.other "boom"),
        parseMapped := fun _ => Node.text "" } "example.com" =
      .raised (.other "boom") := rfl

/-- Claim C2, amended.  The readability generator always returns
normally (any exception in its extraction yields `None`); the
trafilatura generator returns normally whenever the plain-text
extraction call does not raise (the XML attempts are fully guarded). -/
theorem C2_generator_failure_contract (parsed : PyResult (String × Node))
    (domain : String) (calls : TrafilaturaCalls) (domain2 : String) :
    (∃ v, readabilityCandidate parsed domain = .ok v) ∧
    (∀ e, parsed = .raised e → readabilityCandidate parsed domain = .ok none) ∧
    (∀ v, calls.extractPlain = .ok v →
      ∃ w, trafilaturaCandidate calls domain2 = .ok w) := by
  refine ⟨?_, ?_, ?_⟩
  · cases parsed with
    | raised e => exact ⟨none, rfl⟩
    | ok p => exact ⟨_, rfl⟩
  · rintro e rfl
    rfl
  · intro v hv
    have hplain : ∃ w, trafilaturaPlainPath calls.extractPlain domain2 = .ok w := by
      rw [hv]
      cases v with
      | none => exact ⟨none, rfl⟩
      | some txt => exact ⟨_, rfl⟩
    unfold trafilaturaCandidate
    cases hnew : calls.extractXmlNew with
    | ok o =>
      cases o with
      | none => exact hplain
      | some x =>
        by_cases hx : containsSub x "<" && containsSub x "</"
        · simp only [hx, if_true]
          exact ⟨_, rfl⟩
        · simp only [hx, if_false]
          exact hplain
    | raised e =>
      cases e with
      | typeError =>
        cases hold : calls.extractXmlOld with
        | ok o =>
          cases o with
          | none => exact hplain
          | some x =>
            by_cases hx : containsSub x "<" && containsSub x "</"
            · simp only [hx, if_true]
              exact ⟨_, rfl⟩
            · simp only [hx, if_false]
              exact hplain
        | raised e2 => exact hplain
      | other m => exact hplain

/-- Claim C2, amended, witness at concrete inputs. -/
theorem C2_generator_failure_contract_witness :
    ∃ w, trafilaturaCandidate
      { extractXmlNew := .ok none, extractXmlOld := .ok none,
        extractPlain := .ok none, parseMapped := fun _ => Node.text "" }
      "example.com" = .ok w :=
  (C2_generator_failure_contract (.raised .typeError) "example.com"
    { extractXmlNew := .ok none, extractXmlOld := .ok none,
      extractPlain := .ok none, parseMapped := fun _ => Node.text "" }
    "example.com").2.2 none rfl

/-- Claim C3, counterexample.  A selected candidate whose cleaned tree
emits zero lines still gets a `Title:` line: the EmptyContent failure
form carries a title with no content lines, contradicting the claim
that the `Title:` line is omitted in every failure form. -/
theorem C3_counterexample_title_present_in_empty_content_form :
    extractToTemplate "http://e/x" rawWithTitle (some emptyWalkCand) none =
      "BEGIN\nURL: http://e/x\nTitle: Some Title\nERROR: content_not_found\nEND" ∧
    containsSub
      (extractToTemplate "http://e/x" rawWithTitle (some emptyWalkCand) none)
      "\nTitle: " = true := ⟨rfl, rfl⟩

/-- Claim C3, amended.  The `Title:` line is omitted only in the
no-candidate failure form; in the EmptyContent form (candidate selected,
emitter produced zero lines) the envelope contains a `Title:` line
immediately followed by the in-band `ERROR: content_not_found` line. -/
theorem C3_title_omission_only_without_candidate (url : String)
    (rawDoc : Node) (a b : Option Candidate) :
    (pickBest a b = none →
      extractToTemplate url rawDoc a b =
        "BEGIN\nURL: " ++ url ++ "\nERROR: content_not_found\nEND") ∧
    (∀ best, pickBest a b = some best →
      emitWalk (finalCleanup best.soup) = [] →
      extractToTemplate url rawDoc a b =
        joinWith "\n"
          ["BEGIN", "URL: " ++ url,
           "Title: " ++ (if resolveTitle best.soup a rawDoc = "" then "(no title)"
             else resolveTitle best.soup a rawDoc),
           "ERROR: content_not_found", "END"]) := by
  constructor
  · intro h
    unfold extractToTemplate
    rw [h]
  · intro best hp hw
    unfold extractToTemplate
    rw [hp]
    dsimp only
    rw [show emitBlocks (finalCleanup best.soup) = ["ERROR: content_not_found"] from by
      simp only [emitBlocks, hw]; rfl]
    rfl

/-- Claim C3, amended, witness at concrete inputs. -/
theorem C3_title_omission_only_without_candidate_witness :
    extractToTemplate "u" rawWithTitle none none =
      "BEGIN\nURL: u\nERROR: content_not_found\nEND" ∧
    extractToTemplate "u" rawWithTitle (some emptyWalkCand) none =
      joinWith "\n"
        ["BEGIN", "URL: u",
         "Title: " ++
           (if resolveTitle emptyWalkCand.soup (some emptyWalkCand) rawWithTitle = ""
            then "(no title)"
            else resolveTitle emptyWalkCand.soup (some emptyWalkCand) rawWithTitle),
         "ERROR: content_not_found", "END"] :=
  ⟨(C3_title_omission_only_without_candidate "u" rawWithTitle none none).1 rfl,
   (C3_title_omission_only_without_candidate "u" rawWithTitle
     (some emptyWalkCand) none).2 emptyWalkCand rfl rfl⟩

/-- Claim C4.  `_pick_best` coincides with the specification selector
(50-character gate, highest score among gated candidates, first wins
ties, non-null fallback preferring the first input), and a candidate
with cleaned text length 0 is never selected over one with length
above 50, in either argument position. -/
theorem C4_pick_best_gate_and_score (a b : Option Candidate) :
    pickBest a b = pickBestSpec a b ∧
    (∀ ca cb, a = some ca → b = some cb →
      textLen ca.text = 0 → 50 < textLen cb.text → pickBest a b = some cb) ∧
    (∀ ca cb, a = some ca → b = some cb →
      textLen cb.text = 0 → 50 < textLen ca.text → pickBest a b = some ca) := by
  refine ⟨?_, ?_, ?_⟩
  · cases a with
    | none =>
      cases b with
      | none => rfl
      | some cb =>
        by_cases hb : 50 < textLen cb.text <;>
          simp [pickBest, pickBestSpec, gateSpec, hb, maxByScore, Option.orElse]
    | some ca =>
      cases b with
      | none =>
        by_cases ha : 50 < textLen ca.text <;>
          simp [pickBest, pickBestSpec, gateSpec, ha, maxByScore, Option.orElse]
      | some cb =>
        by_cases ha : 50 < textLen ca.text <;>
          by_cases hb : 50 < textLen cb.text <;>
          simp [pickBest, pickBestSpec, gateSpec, ha, hb, maxByScore, Option.orElse]
  · rintro ca cb rfl rfl h0 h50
    have ha : ¬ 50 < textLen ca.text := by rw [h0]; decide
    simp [pickBest, ha, h50, maxByScore]
  · rintro ca cb rfl rfl h0 h50
    have hb : ¬ 50 < textLen cb.text := by rw [h0]; decide
    simp [pickBest, hb, h50, maxByScore]

/-- Claim C4, witness: the empty-text candidate loses to the
60-character candidate in both argument positions. -/
theorem C4_pick_best_gate_and_score_witness :
    pickBest (some emptyTextCand) (some longTextCand) = some longTextCand ∧
    pickBest (some longTextCand) (some emptyTextCand) = some longTextCand :=
  ⟨(C4_pick_best_gate_and_score (some emptyTextCand) (some longTextCand)).2.1
      emptyTextCand longTextCand rfl rfl rfl (by decide),
   (C4_pick_best_gate_and_score (some longTextCand) (some emptyTextCand)).2.2
      longTextCand emptyTextCand rfl rfl rfl (by decide)⟩

/-- Claim C5.  Every candidate's score is
`length(text) * (1 - link_density(tree))` times the structure factor:
1.15 / 1 for the readability generator, 1.10 / 0.92 for the trafilatura
generator, according to whether the cleaned tree has an `h2`–`h5`
heading. -/
theorem C5_score_formula (domain title : String) (t : Node) :
    (readabilityClean domain title t).score =
      ((readabilityClean domain title t).text.length : ℚ) *
        (1 - linkDensity (readabilityClean domain title t).soup) *
        (if hasHeadings (readabilityClean domain title t).soup then
          115 / 100 else 1) ∧
    (trafilaturaClean domain title t).score =
      ((trafilaturaClean domain title t).text.length : ℚ) *
        (1 - linkDensity (trafilaturaClean domain title t).soup) *
        (if hasHeadings (trafilaturaClean domain title t).soup then
          110 / 100 else 92 / 100) := by
  constructor <;> simp only [readabilityClean, trafilaturaClean] <;>
    split_ifs <;> ring

/-- Claim C6.  `_link_density` always lies in `[0, 1]` and equals `1`
exactly when the tree's visible text is empty. -/
theorem C6_link_density_bounds (t : Node) :
    0 ≤ linkDensity t ∧ linkDensity t ≤ 1 ∧
      (getTextStrip " " t = "" → linkDensity t = 1) := by
  by_cases h : (getTextStrip " " t).length = 0
  · have h1 : linkDensity t = 1 := by
      simp only [linkDensity]
      rw [if_pos h]
    exact ⟨h1 ▸ zero_le_one, h1 ▸ le_refl (1 : ℚ), fun _ => h1⟩
  · refine ⟨?_, ?_, fun he => absurd (by rw [he]; rfl) h⟩
    · simp only [linkDensity]
      rw [if_neg h]
      exact (clamp_bounds _).1
    · simp only [linkDensity]
      rw [if_neg h]
      exact (clamp_bounds _).2

/-- Claim C6, witness: the empty document has density exactly 1. -/
theorem C6_link_density_bounds_witness :
    linkDensity (Node.elem "[document]" [] []) = 1 :=
  (C6_link_density_bounds (Node.elem "[document]" [] [])).2.2 rfl

/-- Claim C7.  For every selected candidate the emitted `Title:` line is
the first non-empty value of: the `h1` of the selected candidate's
cleaned tree, the readability generator's title (even when not
selected), the raw document's `<title>` text, and finally the literal
placeholder `"(no title)"`. -/
theorem C7_title_priority_chain (url : String) (rawDoc : Node)
    (a b : Option Candidate) (best : Candidate)
    (hp : pickBest a b = some best) :
    ∃ tail,
      extractToTemplate url rawDoc a b =
        "BEGIN" ++ "\n" ++ ("URL: " ++ url) ++ "\n" ++
          ("Title: " ++ firstNonEmpty
            [h1Title best.soup,
             (match a with | some c => c.title | none => ""),
             pageTitle rawDoc] "(no title)") ++ "\n" ++ tail := by
  refine ⟨joinWith "\n" (emitBlocks (finalCleanup best.soup) ++ ["END"]), ?_⟩
  unfold extractToTemplate
  rw [hp]
  dsimp only
  rw [List.append_assoc]
  have h1 : emitBlocks (finalCleanup best.soup) ++ ["END"] ≠ [] := by
    cases emitBlocks (finalCleanup best.soup) <;> simp
  rw [show (["BEGIN", "URL: " ++ url,
        "Title: " ++ (if resolveTitle best.soup a rawDoc = "" then "(no title)"
          else resolveTitle best.soup a rawDoc)] ++
        (emitBlocks (finalCleanup best.soup) ++ ["END"])) =
      ("BEGIN" :: ("URL: " ++ url) ::
        ("Title: " ++ (if resolveTitle best.soup a rawDoc = "" then "(no title)"
          else resolveTitle best.soup a rawDoc)) ::
        (emitBlocks (finalCleanup best.soup) ++ ["END"])) from rfl]
  rw [joinWith_cons_of_ne _ _ _ (by simp), joinWith_cons_of_ne _ _ _ (by simp),
    joinWith_cons_of_ne _ _ _ h1, title_chain_eq]
  simp [String.append_assoc]

/-- Claim C7, witness at a concrete selected candidate. -/
theorem C7_title_priority_chain_witness :
    ∃ tail,
      extractToTemplate "u" rawWithTitle (some emptyWalkCand) none =
        "BEGIN" ++ "\n" ++ ("URL: " ++ "u") ++ "\n" ++
          ("Title: " ++ firstNonEmpty
            [h1Title emptyWalkCand.soup,
             (match some emptyWalkCand with | some c => c.title | none => ""),
             pageTitle rawWithTitle] "(no title)") ++ "\n" ++ tail :=
  C7_title_priority_chain "u" rawWithTitle (some emptyWalkCand) none
    emptyWalkCand rfl

/-- Claim C8.  Whenever the full walk of the tree produces zero lines —
in particular whenever the tree has no emitter-recognized element — the
Block Emitter's output is exactly the single in-band error line. -/
theorem C8_empty_walk_error_line (t : Node) :
    (emitWalk t = [] → emitBlocks t = ["ERROR: content_not_found"]) ∧
    (noEmitTagsNode t = true → emitBlocks t = ["ERROR: content_not_found"]) := by
  have main : emitWalk t = [] → emitBlocks t = ["ERROR: content_not_found"] := by
    intro h
    simp only [emitBlocks, h]
    rfl
  refine ⟨main, fun h => main ?_⟩
  cases t with
  | text s => rfl
  | elem tag attrs cs =>
    unfold noEmitTagsNode at h
    rw [Bool.and_eq_true] at h
    simp only [emitWalk, matchedElems]
    rw [emitTargetsList_nil tag cs h.2]
    rfl

/-- Claim C8, witness: a tree with only a `div` emits the error line. -/
theorem C8_empty_walk_error_line_witness :
    emitBlocks plainDivTree = ["ERROR: content_not_found"] :=
  (C8_empty_walk_error_line plainDivTree).2 (by decide)

/-- Claim C9.  A matched non-heading element first in the walk opens the
synthetic `H2: Introduction` section even when it contributes no line;
for the tree whose only recognized element is an empty `<p>`, the
emitter returns exactly `["H2: Introduction", "Body:"]` and not the
error marker. -/
theorem C9_intro_section_opened_by_empty_element :
    (∀ (t : Node) (pt : String) (el : Node) (rest : List (String × Node))
        (tag : String) (attrs : List (String × String)) (cs : List Node),
        matchedElems t = (pt, el) :: rest →
        el = Node.elem tag attrs cs →
        tag ≠ "h2" → tag ≠ "h3" → tag ≠ "h4" → tag ≠ "h5" →
        ∃ tail, emitWalk t = "H2: Introduction" :: "Body:" :: tail) ∧
    emitBlocks emptyParaTree = ["H2: Introduction", "Body:"] := by
  constructor
  · intro t pt el rest tag attrs cs hm hel h2 h3 h4 h5
    subst hel
    obtain ⟨d0, hd0⟩ := emitStep_init_nonheading pt tag attrs cs h2 h3 h4 h5
    obtain ⟨d, hd⟩ :=
      foldl_emitStep_extend rest (emitStep initState (pt, Node.elem tag attrs cs))
    refine ⟨d0 ++ d, ?_⟩
    unfold emitWalk
    rw [hm, List.foldl_cons, hd, hd0, List.append_assoc]
    rfl
  · rfl

/-- Claim C9, witness: the empty-paragraph tree instantiates the general
statement. -/
theorem C9_intro_section_opened_by_empty_element_witness :
    ∃ tail, emitWalk emptyParaTree = "H2: Introduction" :: "Body:" :: tail :=
  C9_intro_section_opened_by_empty_element.1 emptyParaTree "[document]"
    (Node.elem "p" [] []) [] "p" [] [] rfl rfl
    (by decide) (by decide) (by decide) (by decide)

/-- Claim C10.  When both candidates exist and both fail the 50-character
gate, the selector falls back to the first candidate and the pipeline
still emits a full BEGIN/URL/Title success envelope around that short
candidate's walk lines (no re-check of the gate, no error form), as long
as the walk produces at least one line. -/
theorem C10_short_fallback_emitted_as_success (url : String) (rawDoc : Node)
    (ca cb : Candidate)
    (ha : textLen ca.text ≤ 50) (hb : textLen cb.text ≤ 50)
    (hw : emitWalk (finalCleanup ca.soup) ≠ []) :
    pickBest (some ca) (some cb) = some ca ∧
    extractToTemplate url rawDoc (some ca) (some cb) =
      joinWith "\n"
        (["BEGIN", "URL: " ++ url,
          "Title: " ++ (if resolveTitle ca.soup (some ca) rawDoc = "" then "(no title)"
            else resolveTitle ca.soup (some ca) rawDoc)] ++
          emitWalk (finalCleanup ca.soup) ++ ["END"]) := by
  have hpick : pickBest (some ca) (some cb) = some ca := by
    have ha' : ¬ 50 < textLen ca.text := not_lt.2 ha
    have hb' : ¬ 50 < textLen cb.text := not_lt.2 hb
    simp [pickBest, ha', hb', Option.orElse]
  refine ⟨hpick, ?_⟩
  unfold extractToTemplate
  rw [hpick]
  dsimp only
  rw [show emitBlocks (finalCleanup ca.soup) = emitWalk (finalCleanup ca.soup) from by
    simp only [emitBlocks]; rw [if_neg hw]]

/-- Claim C10, witness: two candidates of 2-character text, the first is
returned and its paragraph line is emitted inside a success envelope. -/
theorem C10_short_fallback_emitted_as_success_witness :
    pickBest (some shortCand) (some shortCandB) = some shortCand ∧
    extractToTemplate "u" rawWithTitle (some shortCand) (some shortCandB) =
      joinWith "\n"
        (["BEGIN", "URL: u",
          "Title: " ++ (if resolveTitle shortCand.soup (some shortCand) rawWithTitle = ""
            then "(no title)"
            else resolveTitle shortCand.soup (some shortCand) rawWithTitle)] ++
          emitWalk (finalCleanup shortCand.soup) ++ ["END"]) :=
  C10_short_fallback_emitted_as_success "u" rawWithTitle shortCand shortCandB
    (by decide) (by decide) (by decide)

end Extractor
